import Mathlib

/-
Verification of the ledger core of the telegram-bot-pix repository.

The embedding models the two Sequelize tables (Users, Transactions) as an
explicit store, and each Sequelize primitive the handlers invoke
(User.findByPk, user.increment, Transaction.create) as an atomic step on
that store.  Monetary amounts (FLOAT columns holding currency values) are
modelled as rationals; control flow is translated statement by statement
from src/bot.js, src/webhook.js and src/unnamed/part_000.
-/

namespace TelegramPix

set_option maxRecDepth 2500

/-- Rational addition written through mkRat so that it evaluates by kernel
reduction; the bridge lemma qAdd_eq below identifies it with ordinary
rational addition. -/
def qAdd (a b : Rat) : Rat :=
  mkRat (a.num * b.den + b.num * a.den) (a.den * b.den)

/-- Rational multiplication written through mkRat so that it evaluates by
kernel reduction; the bridge lemma qMul_eq below identifies it with
ordinary rational multiplication. -/
def qMul (a b : Rat) : Rat :=
  mkRat (a.num * b.num) (a.den * b.den)

/-- Transaction kinds: the ENUM of the Transactions table in bot.js and
webhook.js, namely deposit, purchase, refund and admin_adjustment. -/
inductive TxType where
  | deposit
  | purchase
  | refund
  | adminAdjustment
deriving DecidableEq, Repr

/-- One row of the Transactions table.  The column named type in the source
is called txType here; paymentId and paymentMethod are the nullable
correlation columns of the bot.js revision of the model. -/
structure Txn where
  userId : Int
  txType : TxType
  amount : Rat
  description : String
  paymentId : Option String
  paymentMethod : Option String
deriving DecidableEq, Repr

/-- One row of the Users table: telegramId is the primary key, balance is
the stored FLOAT balance, isAdmin the admin flag. -/
structure UserR where
  telegramId : Int
  username : String
  balance : Rat
  isAdmin : Bool
deriving DecidableEq, Repr

/-- The persistent store: the user rows plus the append-only transaction
log, kept in insertion order. -/
structure DB where
  users : List UserR
  txns : List Txn
deriving DecidableEq, Repr

/-- Lookup by primary key over a user list (User.findByPk). -/
def findUserIn : List UserR → Int → Option UserR
  | [], _ => none
  | u :: rest, uid => if u.telegramId = uid then some u else findUserIn rest uid

/-- User.findByPk on the store. -/
def findByPk (db : DB) (uid : Int) : Option UserR :=
  findUserIn db.users uid

/-- Adds a to the stored balance of the row whose key is uid.  This models
user.increment of the balance column: Sequelize issues one atomic SQL
UPDATE that adds the delta to the stored value, so the whole step is a
single atomic store operation. -/
def incUsers : List UserR → Int → Rat → List UserR
  | [], _, _ => []
  | u :: rest, uid, a =>
      (if u.telegramId = uid then { u with balance := qAdd u.balance a } else u)
        :: incUsers rest uid a

/-- The atomic balance increment on the store. -/
def incrementBalance (db : DB) (uid : Int) (a : Rat) : DB :=
  { db with users := incUsers db.users uid a }

/-- Transaction.create: appends one row to the log. -/
def createTxn (db : DB) (t : Txn) : DB :=
  { db with txns := db.txns ++ [t] }

/-- updateUserBalance of bot.js (and, with both optional arguments none, of
src/unnamed/part_000): looks the user up by primary key; if absent it
performs no mutation and returns the null user; otherwise it increments
the stored balance, appends one transaction row, reloads the user and
returns it.  The increment and the insert are two separate store calls,
exactly as in the source, with no enclosing storage transaction. -/
def updateUserBalance (db : DB) (telegramId : Int) (amount : Rat) (txType : TxType)
    (description : String) (paymentId : Option String) (paymentMethod : Option String) :
    DB × Option UserR :=
  match findByPk db telegramId with
  | none => (db, none)
  | some _ =>
      let db1 := incrementBalance db telegramId amount
      let db2 := createTxn db1
        { userId := telegramId, txType := txType, amount := amount,
          description := description, paymentId := paymentId, paymentMethod := paymentMethod }
      (db2, findByPk db2 telegramId)

/-- The store state produced by a run of updateUserBalance in which
Transaction.create fails after the increment succeeded.  Because the
source performs the increment and the insert as two separate awaited
calls with no enclosing storage transaction and no rollback, the
increment persists while no row is appended. -/
def updateUserBalanceInsertFails (db : DB) (telegramId : Int) (amount : Rat) : DB :=
  match findByPk db telegramId with
  | none => db
  | some _ => incrementBalance db telegramId amount

/-- Sum of the amounts of all transaction rows belonging to uid. -/
def ledgerSum (db : DB) (uid : Int) : Rat :=
  ((db.txns.filter (fun t => decide (t.userId = uid))).map Txn.amount).foldr qAdd 0

/-- Number of transaction rows belonging to uid. -/
def txnCount (db : DB) (uid : Int) : Nat :=
  (db.txns.filter (fun t => decide (t.userId = uid))).length

/-- Number of deposit rows belonging to uid. -/
def depositCount (db : DB) (uid : Int) : Nat :=
  (db.txns.filter (fun t => decide (t.userId = uid ∧ t.txType = TxType.deposit))).length

/-- Number of refund rows belonging to uid. -/
def refundCount (db : DB) (uid : Int) : Nat :=
  (db.txns.filter (fun t => decide (t.userId = uid ∧ t.txType = TxType.refund))).length

/-- The core ledger invariant of the spec: every stored balance equals the
sum of the amounts of the transaction rows of that user. -/
def invariantB (db : DB) : Bool :=
  db.users.all (fun u => decide (u.balance = ledgerSum db u.telegramId))

/-- An atomic store operation: either the atomic SQL balance increment or a
transaction-row insert.  A run of updateUserBalance that finds its user
performs exactly one inc followed by one app; an interleaved scheduler can
interleave the steps of two calls in any order between these suspension
points. -/
inductive Op where
  | inc (uid : Int) (amt : Rat)
  | app (t : Txn)
deriving DecidableEq, Repr

/-- Effect of one atomic operation on the store. -/
def applyOp (db : DB) : Op → DB
  | .inc uid amt => incrementBalance db uid amt
  | .app t => createTxn db t

/-- Runs a schedule of atomic operations left to right. -/
def runOps (db : DB) : List Op → DB
  | [] => db
  | o :: rest => runOps (applyOp db o) rest

/-- The two mutating atomic steps of one updateUserBalance call whose
findByPk succeeded: the balance increment, then the row insert, built
from the same arguments the source passes. -/
def updateOps (uid : Int) (amt : Rat) (txType : TxType) (description : String)
    (paymentId : Option String) (paymentMethod : Option String) : List Op :=
  [Op.inc uid amt,
   Op.app { userId := uid, txType := txType, amount := amt,
            description := description, paymentId := paymentId, paymentMethod := paymentMethod }]

/-- All ways the event loop can interleave the atomic steps of two
concurrent tasks, preserving the program order of each task. -/
inductive Interleaving : List Op → List Op → List Op → Prop where
  | nilLeft (ys : List Op) : Interleaving [] ys ys
  | nilRight (xs : List Op) : Interleaving xs [] xs
  | consLeft {xs ys zs : List Op} (x : Op) :
      Interleaving xs ys zs → Interleaving (x :: xs) ys (x :: zs)
  | consRight {xs ys zs : List Op} (y : Op) :
      Interleaving xs ys zs → Interleaving xs (y :: ys) (y :: zs)

/-- Contribution of one operation to the balance of uid. -/
def opInc (uid : Int) : Op → Rat
  | .inc uid2 a => if uid2 = uid then a else 0
  | .app _ => 0

/-- Contribution of one operation to the row count of uid. -/
def opApp (uid : Int) : Op → Nat
  | .inc _ _ => 0
  | .app t => if t.userId = uid then 1 else 0

/-- Total balance delta a schedule applies to uid. -/
def incSum (uid : Int) (ops : List Op) : Rat :=
  (ops.map (opInc uid)).sum

/-- Total number of rows a schedule appends for uid. -/
def appCount (uid : Int) (ops : List Op) : Nat :=
  (ops.map (opApp uid)).sum

/-- Numeric value of a digit list read left to right. -/
def digitsToNat (l : List Char) : Nat :=
  l.foldl (fun acc c => acc * 10 + (c.toNat - 48)) 0

/-- JavaScript parseInt on a string: skips leading spaces, accepts an
optional sign, then reads the longest leading digit run; NaN (none) when
no digit is read.  Trailing non-digits are ignored, as in JavaScript. -/
def parseIntJS (s : String) : Option Int :=
  let cs := s.data.dropWhile (fun c => c = ' ')
  let sgn : Int := match cs with
    | '-' :: _ => -1
    | _ => 1
  let rest := match cs with
    | '-' :: r => r
    | '+' :: r => r
    | r => r
  let ds := rest.takeWhile Char.isDigit
  if ds.isEmpty then none else some (sgn * (digitsToNat ds : Int))

/-- JavaScript parseFloat on a string, restricted to the decimal forms the
handlers receive: optional sign, integer digits, optional fractional
digits; NaN (none) when no digit is read. -/
def parseFloatJS (s : String) : Option Rat :=
  let cs := s.data.dropWhile (fun c => c = ' ')
  let sgn : Rat := match cs with
    | '-' :: _ => -1
    | _ => 1
  let rest := match cs with
    | '-' :: r => r
    | '+' :: r => r
    | r => r
  let intDs := rest.takeWhile Char.isDigit
  let afterInt := rest.drop intDs.length
  let fracDs := match afterInt with
    | '.' :: r => r.takeWhile Char.isDigit
    | _ => []
  if intDs.isEmpty ∧ fracDs.isEmpty then none
  else some (qMul sgn (qAdd (digitsToNat intDs : Rat) (mkRat (digitsToNat fracDs) (10 ^ fracDs.length))))

/-- Whether the string contains a dash (referenceId.includes of a dash in
the webhook). -/
def containsDash (s : String) : Bool :=
  s.data.contains '-'

/-- First dash-delimited token of the string: referenceId.split on a dash,
element zero, in processPaymentFromReference. -/
def firstDashToken (s : String) : String :=
  String.mk (s.data.takeWhile (fun c => c ≠ '-'))

/-- processPaymentFromReference of webhook.js.  Rejects an empty or
dash-free reference with status 400 and no mutation; parses the first
dash-delimited token as the telegram id; when that id is a number, the
amount is positive and the user exists, it increments the balance and
appends one deposit row (again as two separate store calls) and answers
200; a missing user answers 404 and an unparsable id or non-positive
amount answers 400, in both cases without mutation. -/
def processPaymentFromReference (db : DB) (referenceId : String) (amount : Rat)
    (transactionId : String) : DB × Nat :=
  if referenceId = "" ∨ containsDash referenceId = false then (db, 400)
  else
    match parseIntJS (firstDashToken referenceId) with
    | none => (db, 400)
    | some telegramId =>
        if 0 < amount then
          match findByPk db telegramId with
          | some _ =>
              let db1 := incrementBalance db telegramId amount
              let db2 := createTxn db1
                { userId := telegramId, txType := TxType.deposit, amount := amount,
                  description := "Depósito PagSeguro confirmado (ID: " ++ transactionId ++ ")",
                  paymentId := none, paymentMethod := none }
              (db2, 200)
          | none => (db, 404)
        else (db, 400)

/-- Reference id attached by createPagSeguroPIX in bot.js: the literal word
telegram, the telegram id and the current time, dash-separated. -/
def pagSeguroReferenceId (telegramId : Int) (now : Nat) : String :=
  "telegram-" ++ toString telegramId ++ "-" ++ toString now

/-- Reference id attached by the Wegate deposit flow of
src/unnamed/part_000: the telegram id and the current time,
dash-separated. -/
def wegateReferenceId (telegramId : Int) (now : Nat) : String :=
  toString telegramId ++ "-" ++ toString now

/-- JavaScript toLowerCase on the ASCII item-type tags, written over the
character list so that it evaluates by kernel reduction. -/
def toLowerStr (s : String) : String :=
  String.mk (s.data.map Char.toLower)

/-- Outcome of a run of a comprar handler.  The first five tags are the
early rejections; purchased is the successful path; purchaseRefunded is
the catch branch of the first handler; purchaseFailedNoRefund is a
generation failure escaping the second handler, which has no catch. -/
inductive PurchaseOutcome where
  | invalidQuantity
  | quantityOverMax
  | notRegistered
  | invalidItemType
  | insufficientBalance
  | purchased
  | purchaseRefunded
  | purchaseFailedNoRefund
deriving DecidableEq, Repr

/-- Catalog of the first comprar handler of bot.js: unit price and item
label per lowercased item type tag. -/
def itemInfo1 (itemType : String) : Option (Rat × String) :=
  if itemType = "gg" then some (10, "GG")
  else if itemType = "card" ∨ itemType = "cartao" then some (5, "cartão de teste")
  else none

/-- Catalog of the second comprar handler of bot.js: both item types cost
ten there. -/
def itemInfo2 (itemType : String) : Option (Rat × String) :=
  if itemType = "gg" then some (10, "GG")
  else if itemType = "card" ∨ itemType = "cartao" then some (10, "cartão de teste")
  else none

/-- First comprar handler of bot.js (the one with the 50-item cap and the
catch branch).  Steps, in source order: parse the quantity and reject NaN
or non-positive values; reject quantities above 50; reject unregistered
users; resolve the item type, rejecting unknown tags; reject when the
stored balance is below quantity times unit price; debit via
updateUserBalance with kind purchase; then run item generation.  The
generationSucceeds flag states whether the generation phase completes or
throws: on a throw the catch branch credits the same total back via
updateUserBalance with kind refund. -/
def comprarHandler1 (db : DB) (telegramId : Int) (itemTypeRaw quantityRaw : String)
    (generationSucceeds : Bool) : DB × PurchaseOutcome :=
  let itemType := toLowerStr itemTypeRaw
  match parseIntJS quantityRaw with
  | none => (db, PurchaseOutcome.invalidQuantity)
  | some quantity =>
      if quantity ≤ 0 then (db, PurchaseOutcome.invalidQuantity)
      else if 50 < quantity then (db, PurchaseOutcome.quantityOverMax)
      else
        match findByPk db telegramId with
        | none => (db, PurchaseOutcome.notRegistered)
        | some user =>
            match itemInfo1 itemType with
            | none => (db, PurchaseOutcome.invalidItemType)
            | some info =>
                let totalCost : Rat := qMul (quantity : Rat) info.1
                if user.balance < totalCost then (db, PurchaseOutcome.insufficientBalance)
                else
                  let db1 := (updateUserBalance db telegramId (-totalCost) TxType.purchase
                    ("Compra de " ++ toString quantity ++ " " ++ info.2 ++ "(s)")
                    none (some "purchase")).1
                  if generationSucceeds then (db1, PurchaseOutcome.purchased)
                  else
                    let db2 := (updateUserBalance db1 telegramId totalCost TxType.refund
                      ("Reembolso - Erro na compra de " ++ toString quantity ++ " " ++ info.2 ++ "(s)")
                      none (some "refund")).1
                    (db2, PurchaseOutcome.purchaseRefunded)

/-- Second comprar handler of bot.js (registered on the same command
pattern further down the file).  Same shape, but there is no maximum
quantity check and no catch: when the generation phase throws after the
debit, the exception escapes and no compensating refund is appended. -/
def comprarHandler2 (db : DB) (telegramId : Int) (itemTypeRaw quantityRaw : String)
    (generationSucceeds : Bool) : DB × PurchaseOutcome :=
  let itemType := toLowerStr itemTypeRaw
  match parseIntJS quantityRaw with
  | none => (db, PurchaseOutcome.invalidQuantity)
  | some quantity =>
      if quantity ≤ 0 then (db, PurchaseOutcome.invalidQuantity)
      else
        match findByPk db telegramId with
        | none => (db, PurchaseOutcome.notRegistered)
        | some user =>
            match itemInfo2 itemType with
            | none => (db, PurchaseOutcome.invalidItemType)
            | some info =>
                let totalCost : Rat := qMul (quantity : Rat) info.1
                if user.balance < totalCost then (db, PurchaseOutcome.insufficientBalance)
                else
                  let db1 := (updateUserBalance db telegramId (-totalCost) TxType.purchase
                    ("Compra de " ++ toString quantity ++ " " ++ info.2 ++ "(s)")
                    none none).1
                  if generationSucceeds then (db1, PurchaseOutcome.purchased)
                  else (db1, PurchaseOutcome.purchaseFailedNoRefund)

/-- Outcome of a run of the setsaldo handler. -/
inductive AdminOutcome where
  | accessDenied
  | usageError
  | targetNotFound
  | adjusted
deriving DecidableEq, Repr

/-- Whether the account acting under this id exists and carries the admin
flag. -/
def isAdminAcct (db : DB) (uid : Int) : Bool :=
  match findByPk db uid with
  | some u => u.isAdmin
  | none => false

/-- The setsaldo handler (identical control flow in bot.js and in
src/unnamed/part_000): deny unless the acting account exists and has the
admin flag; reject unparsable arguments; reject a missing target user;
otherwise apply the signed delta via updateUserBalance with kind
admin_adjustment. -/
def setsaldoHandler (db : DB) (adminTelegramId : Int) (targetRaw amountRaw : String) :
    DB × AdminOutcome :=
  match findByPk db adminTelegramId with
  | none => (db, AdminOutcome.accessDenied)
  | some adminUser =>
      if adminUser.isAdmin = false then (db, AdminOutcome.accessDenied)
      else
        match parseIntJS targetRaw, parseFloatJS amountRaw with
        | some targetId, some amount =>
            (match findByPk db targetId with
             | none => (db, AdminOutcome.targetNotFound)
             | some _ =>
                 ((updateUserBalance db targetId amount TxType.adminAdjustment
                   ("Ajuste de saldo por admin " ++ toString adminTelegramId) none none).1,
                  AdminOutcome.adjusted))
        | _, _ => (db, AdminOutcome.usageError)

/-- Luhn doubling of one digit: twice the digit, minus nine when that
exceeds nine. -/
def luhnDouble (d : Nat) : Nat :=
  if 9 < 2 * d then 2 * d - 9 else 2 * d

/-- generateLuhnNumber of generateTestCreditCardData in
src/unnamed/part_000, over digit lists.  The base number is the brand
stem extended with pseudo-random digits up to length len minus one; the
source then sets parity to the length of that base modulo two, doubles
the base digits whose index has that parity, and appends the check digit
ten minus the sum modulo ten.  The randomDigits argument is the stream of
Math.random digit draws. -/
def generateLuhnNumber (stem : List Nat) (len : Nat) (randomDigits : List Nat) : List Nat :=
  let cardNumber := stem ++ randomDigits.take (len - 1 - stem.length)
  let parity := cardNumber.length % 2
  let s := (cardNumber.enum.map (fun p => if p.1 % 2 = parity then luhnDouble p.2 else p.2)).sum
  let checkDigit := (10 - s % 10) % 10
  cardNumber ++ [checkDigit]

/-- Standard Luhn validity of a full card number given as digits left to
right: doubling every second digit counted from the rightmost one, the
total must be divisible by ten.  This is the notion of Luhn-validity the
specification refers to. -/
def luhnValid (digits : List Nat) : Bool :=
  ((digits.reverse.enum.map (fun p => if p.1 % 2 = 1 then luhnDouble p.2 else p.2)).sum) % 10 = 0

theorem qAdd_eq (a b : Rat) : qAdd a b = a + b :=
  (Rat.add_def' a b).symm

theorem qMul_eq (a b : Rat) : qMul a b = a * b := by
  rw [Rat.mul_def, Rat.normalize_eq_mkRat]; rfl

theorem findUserIn_incUsers_same (l : List UserR) (uid : Int) (a : Rat) :
    findUserIn (incUsers l uid a) uid
      = (findUserIn l uid).map (fun v => { v with balance := v.balance + a }) := by
  induction l with
  | nil => rfl
  | cons u rest ih =>
      by_cases h : u.telegramId = uid
      · simp [incUsers, findUserIn, h, qAdd_eq]
      · simp [incUsers, findUserIn, h, ih]

theorem findUserIn_incUsers_ne (l : List UserR) (uid uid2 : Int) (a : Rat)
    (h : uid2 ≠ uid) :
    findUserIn (incUsers l uid2 a) uid = findUserIn l uid := by
  induction l with
  | nil => rfl
  | cons u rest ih =>
      by_cases h1 : u.telegramId = uid2
      · have h2 : u.telegramId ≠ uid := by rw [h1]; exact h
        simp [incUsers, findUserIn, h1, h2, h, ih]
      · by_cases h2 : u.telegramId = uid
        · simp [incUsers, findUserIn, h1, h2, Ne.symm h]
        · simp [incUsers, findUserIn, h1, h2, ih]

theorem findByPk_inc_same (db : DB) (uid : Int) (a : Rat) :
    findByPk (incrementBalance db uid a) uid
      = (findByPk db uid).map (fun v => { v with balance := v.balance + a }) :=
  findUserIn_incUsers_same db.users uid a

theorem findByPk_inc_ne (db : DB) (uid uid2 : Int) (a : Rat) (h : uid2 ≠ uid) :
    findByPk (incrementBalance db uid2 a) uid = findByPk db uid :=
  findUserIn_incUsers_ne db.users uid uid2 a h

theorem findByPk_createTxn (db : DB) (t : Txn) (uid : Int) :
    findByPk (createTxn db t) uid = findByPk db uid := rfl

theorem txnCount_inc (db : DB) (uid2 : Int) (a : Rat) (uid : Int) :
    txnCount (incrementBalance db uid2 a) uid = txnCount db uid := rfl

theorem txnCount_createTxn (db : DB) (t : Txn) (uid : Int) :
    txnCount (createTxn db t) uid = txnCount db uid + opApp uid (Op.app t) := by
  by_cases h : t.userId = uid
  · simp [txnCount, createTxn, List.filter_append, opApp, h]
  · simp [txnCount, createTxn, List.filter_append, opApp, h]

theorem findByPk_runOps (uid : Int) : ∀ (σ : List Op) (db : DB),
    findByPk (runOps db σ) uid
      = (findByPk db uid).map (fun v => { v with balance := v.balance + incSum uid σ }) := by
  intro σ
  induction σ with
  | nil =>
      intro db
      cases h : findByPk db uid with
      | none => simp [runOps, h]
      | some v => simp [runOps, h, incSum]
  | cons o rest ih =>
      intro db
      cases o with
      | inc uid2 a =>
          by_cases h : uid2 = uid
          · subst h
            have : findByPk (runOps (incrementBalance db uid2 a) rest) uid2
                = (findByPk (incrementBalance db uid2 a) uid2).map
                    (fun v => { v with balance := v.balance + incSum uid2 rest }) := ih _
            rw [runOps, applyOp, this, findByPk_inc_same]
            cases hf : findByPk db uid2 with
            | none => simp [incSum, opInc]
            | some v =>
                simp [incSum, opInc]
                ring
          · have : findByPk (runOps (incrementBalance db uid2 a) rest) uid
                = (findByPk (incrementBalance db uid2 a) uid).map
                    (fun v => { v with balance := v.balance + incSum uid rest }) := ih _
            rw [runOps, applyOp, this, findByPk_inc_ne db uid uid2 a h]
            cases hf : findByPk db uid with
            | none => simp
            | some v => simp [incSum, opInc, h]
      | app t =>
          have : findByPk (runOps (createTxn db t) rest) uid
              = (findByPk (createTxn db t) uid).map
                  (fun v => { v with balance := v.balance + incSum uid rest }) := ih _
          rw [runOps, applyOp, this, findByPk_createTxn]
          cases hf : findByPk db uid with
          | none => simp
          | some v => simp [incSum, opInc]

theorem txnCount_runOps (uid : Int) : ∀ (σ : List Op) (db : DB),
    txnCount (runOps db σ) uid = txnCount db uid + appCount uid σ := by
  intro σ
  induction σ with
  | nil => intro db; simp [runOps, appCount]
  | cons o rest ih =>
      intro db
      cases o with
      | inc uid2 a =>
          rw [runOps, applyOp, ih, txnCount_inc]
          simp [appCount, opApp]
      | app t =>
          rw [runOps, applyOp, ih, txnCount_createTxn]
          simp [appCount]
          omega

theorem interleaving_incSum (uid : Int) {xs ys zs : List Op}
    (h : Interleaving xs ys zs) :
    incSum uid zs = incSum uid xs + incSum uid ys := by
  induction h with
  | nilLeft ys => simp [incSum]
  | nilRight xs => simp [incSum]
  | consLeft x h ih =>
      simp only [incSum, List.map_cons, List.sum_cons]
      simp only [incSum] at ih
      rw [ih]; ring
  | consRight y h ih =>
      simp only [incSum, List.map_cons, List.sum_cons]
      simp only [incSum] at ih
      rw [ih]; ring

theorem interleaving_appCount (uid : Int) {xs ys zs : List Op}
    (h : Interleaving xs ys zs) :
    appCount uid zs = appCount uid xs + appCount uid ys := by
  induction h with
  | nilLeft ys => simp [appCount]
  | nilRight xs => simp [appCount]
  | consLeft x h ih =>
      simp only [appCount, List.map_cons, List.sum_cons]
      simp only [appCount] at ih
      rw [ih]; omega
  | consRight y h ih =>
      simp only [appCount, List.map_cons, List.sum_cons]
      simp only [appCount] at ih
      rw [ih]; omega

/-- Refinement link: when findByPk finds the user, the store effect of one
updateUserBalance call is exactly the sequential run of its two atomic
operations. -/
theorem updateUserBalance_eq_runOps (db : DB) (uid : Int) (amt : Rat) (ty : TxType)
    (s : String) (pid pm : Option String) (u : UserR) (hu : findByPk db uid = some u) :
    (updateUserBalance db uid amt ty s pid pm).1 = runOps db (updateOps uid amt ty s pid pm) := by
  simp [updateUserBalance, hu, updateOps, runOps, applyOp]

/-- C1: the balance update is not atomic.  On a store holding one user
with balance zero and an empty log, the ledger invariant holds; a run of
updateUserBalance whose Transaction.create fails after the increment
leaves exactly the incremented store, where the stored balance is ten
while the transaction amounts sum to zero, so the invariant is broken.
The third conjunct shows the full updateUserBalance factors through this
intermediate store, so the broken state is also what any observer sees
between the two separate store calls. -/
theorem increment_then_failed_insert_breaks_ledger_invariant :
    invariantB (DB.mk [UserR.mk 7 "alice" 0 false] []) = true ∧
    updateUserBalanceInsertFails (DB.mk [UserR.mk 7 "alice" 0 false] []) 7 10
      = incrementBalance (DB.mk [UserR.mk 7 "alice" 0 false] []) 7 10 ∧
    (updateUserBalance (DB.mk [UserR.mk 7 "alice" 0 false] []) 7 10 TxType.deposit "d" none none).1
      = createTxn (incrementBalance (DB.mk [UserR.mk 7 "alice" 0 false] []) 7 10)
          (Txn.mk 7 TxType.deposit 10 "d" none none) ∧
    (findByPk (updateUserBalanceInsertFails (DB.mk [UserR.mk 7 "alice" 0 false] []) 7 10) 7).map
        UserR.balance = some 10 ∧
    ledgerSum (updateUserBalanceInsertFails (DB.mk [UserR.mk 7 "alice" 0 false] []) 7 10) 7 = 0 ∧
    invariantB (updateUserBalanceInsertFails (DB.mk [UserR.mk 7 "alice" 0 false] []) 7 10) = false := by
  decide

/-- C2: the webhook credit path is not idempotent.  Delivering the very
same provider notification (reference 123-abc17, amount ten, payment id
PAY1) twice against a store holding user 123 with balance zero is
acknowledged with 200 both times and leaves balance twenty and two
deposit rows, not one. -/
theorem duplicate_webhook_notification_credits_twice :
    (processPaymentFromReference (DB.mk [UserR.mk 123 "bob" 0 false] []) "123-abc17" 10 "PAY1").2
      = 200 ∧
    (processPaymentFromReference
        (processPaymentFromReference (DB.mk [UserR.mk 123 "bob" 0 false] []) "123-abc17" 10 "PAY1").1
        "123-abc17" 10 "PAY1").2 = 200 ∧
    (findByPk (processPaymentFromReference
        (processPaymentFromReference (DB.mk [UserR.mk 123 "bob" 0 false] []) "123-abc17" 10 "PAY1").1
        "123-abc17" 10 "PAY1").1 123).map UserR.balance = some 20 ∧
    depositCount (processPaymentFromReference
        (processPaymentFromReference (DB.mk [UserR.mk 123 "bob" 0 false] []) "123-abc17" 10 "PAY1").1
        "123-abc17" 10 "PAY1").1 123 = 2 := by
  decide

/-- C4: the reference id built by createPagSeguroPIX does not decode back
to the user.  For user 123456 the intent reference starts with the
literal word telegram, so the first dash-delimited token is telegram,
parseInt yields NaN and the webhook rejects the confirmed payment with
status 400 and no mutation even though the user exists.  By contrast the
Wegate-style reference of src/unnamed/part_000, which starts with the
user id, is decoded and credited. -/
theorem pagseguro_reference_not_decoded_to_user :
    firstDashToken (pagSeguroReferenceId 123456 1111) = "telegram" ∧
    parseIntJS (firstDashToken (pagSeguroReferenceId 123456 1111)) = none ∧
    processPaymentFromReference (DB.mk [UserR.mk 123456 "carol" 0 false] [])
        (pagSeguroReferenceId 123456 1111) 10 "CH1"
      = (DB.mk [UserR.mk 123456 "carol" 0 false] [], 400) ∧
    (processPaymentFromReference (DB.mk [UserR.mk 123456 "carol" 0 false] [])
        (wegateReferenceId 123456 1111) 10 "CH1").2 = 200 ∧
    (findByPk (processPaymentFromReference (DB.mk [UserR.mk 123456 "carol" 0 false] [])
        (wegateReferenceId 123456 1111) 10 "CH1").1 123456).map UserR.balance = some 10 := by
  decide

/-- C9: the check digit computed by generateLuhnNumber is wrong.  With the
Visa stem four, length sixteen and a random stream of ones, the source
produces 4111111111111115, which fails the standard Luhn check; the
checker itself is grounded by the known-valid test numbers
4111111111111111 and 5555555555554444. -/
theorem generated_card_fails_luhn :
    generateLuhnNumber [4] 16 (List.replicate 20 1)
      = [4, 1, 1, 1, 1, 1, 1, 1, 1, 1, 1, 1, 1, 1, 1, 5] ∧
    luhnValid [4, 1, 1, 1, 1, 1, 1, 1, 1, 1, 1, 1, 1, 1, 1, 5] = false ∧
    luhnValid [4, 1, 1, 1, 1, 1, 1, 1, 1, 1, 1, 1, 1, 1, 1, 1] = true ∧
    luhnValid [5, 5, 5, 5, 5, 5, 5, 5, 5, 5, 5, 5, 4, 4, 4, 4] = true := by
  decide

/-- C6 counterexample: the second comprar handler of bot.js has no catch
branch.  User 9 holds one hundred; buying one GG (cost ten) with the
generation phase failing after the debit ends with balance ninety, a
non-refunded failure outcome and zero refund rows, so the final balance
does not equal the pre-purchase balance and no compensating refund row
exists. -/
theorem second_handler_generation_failure_leaves_no_refund :
    (comprarHandler2 (DB.mk [UserR.mk 9 "dave" 100 false] []) 9 "gg" "1" false).2
      = PurchaseOutcome.purchaseFailedNoRefund ∧
    (findByPk (comprarHandler2 (DB.mk [UserR.mk 9 "dave" 100 false] []) 9 "gg" "1" false).1 9).map
        UserR.balance = some 90 ∧
    refundCount (comprarHandler2 (DB.mk [UserR.mk 9 "dave" 100 false] []) 9 "gg" "1" false).1 9
      = 0 := by
  decide

/-- C7 counterexample: the second comprar handler of bot.js enforces no
maximum quantity.  User 5 holds one thousand; a purchase of fifty-one
GGs is not rejected: it completes, debits five hundred ten and appends a
purchase row. -/
theorem second_handler_accepts_quantity_above_max :
    (comprarHandler2 (DB.mk [UserR.mk 5 "erin" 1000 false] []) 5 "gg" "51" true).2
      = PurchaseOutcome.purchased ∧
    (findByPk (comprarHandler2 (DB.mk [UserR.mk 5 "erin" 1000 false] []) 5 "gg" "51" true).1 5).map
        UserR.balance = some 490 ∧
    txnCount (comprarHandler2 (DB.mk [UserR.mk 5 "erin" 1000 false] []) 5 "gg" "51" true).1 5
      = 1 := by
  decide

/-- Store effect of one updateUserBalance call that finds its user: the
increment followed by the row insert. -/
theorem updateUserBalance_found (db : DB) (uid : Int) (amt : Rat) (ty : TxType)
    (s : String) (pid pm : Option String) (u : UserR) (hu : findByPk db uid = some u) :
    (updateUserBalance db uid amt ty s pid pm).1
      = createTxn (incrementBalance db uid amt)
          { userId := uid, txType := ty, amount := amt, description := s,
            paymentId := pid, paymentMethod := pm } := by
  simp [updateUserBalance, hu]

/-- C10: updateUserBalance called for a telegramId with no User row
performs no mutation at all and returns the null user to the caller. -/
theorem updateUserBalance_missing_user_no_mutation
    (db : DB) (uid : Int) (amt : Rat) (ty : TxType) (s : String)
    (pid pm : Option String) (h : findByPk db uid = none) :
    updateUserBalance db uid amt ty s pid pm = (db, none) := by
  simp [updateUserBalance, h]

theorem updateUserBalance_missing_user_no_mutation_witness :
    updateUserBalance (DB.mk [] []) 7 10 TxType.deposit "d" none none
      = (DB.mk [] [], none) :=
  updateUserBalance_missing_user_no_mutation (DB.mk [] []) 7 10 TxType.deposit "d" none none rfl

/-- C3: no lost update.  Starting from any store in which the user exists
with some balance, every interleaving of the atomic steps of two
updateUserBalance calls for that user with deltas d1 and d2 ends with the
stored balance equal to the base balance plus d1 plus d2 and with exactly
two more transaction rows for that user.  The increment steps are atomic
SQL additions, so no schedule loses one of the deltas. -/
theorem concurrent_updates_no_lost_update
    (db : DB) (uid : Int) (u : UserR) (d1 d2 : Rat) (ty1 ty2 : TxType)
    (s1 s2 : String) (p1 p2 m1 m2 : Option String)
    (hu : findByPk db uid = some u) (σ : List Op)
    (hσ : Interleaving (updateOps uid d1 ty1 s1 p1 m1) (updateOps uid d2 ty2 s2 p2 m2) σ) :
    findByPk (runOps db σ) uid = some { u with balance := u.balance + (d1 + d2) } ∧
    txnCount (runOps db σ) uid = txnCount db uid + 2 := by
  have hsum : incSum uid σ = d1 + d2 := by
    rw [interleaving_incSum uid hσ]
    simp [updateOps, incSum, opInc]
  have hcnt : appCount uid σ = 2 := by
    rw [interleaving_appCount uid hσ]
    simp [updateOps, appCount, opApp]
  constructor
  · rw [findByPk_runOps, hu, hsum]
    rfl
  · rw [txnCount_runOps, hcnt]

theorem concurrent_updates_no_lost_update_witness :
    findByPk (runOps (DB.mk [UserR.mk 7 "gil" 0 false] [])
        (updateOps 7 10 TxType.deposit "a" none none
          ++ updateOps 7 5 TxType.deposit "b" none none)) 7
      = some { (UserR.mk 7 "gil" 0 false) with
                 balance := (UserR.mk 7 "gil" 0 false).balance + (10 + 5) } ∧
    txnCount (runOps (DB.mk [UserR.mk 7 "gil" 0 false] [])
        (updateOps 7 10 TxType.deposit "a" none none
          ++ updateOps 7 5 TxType.deposit "b" none none)) 7
      = txnCount (DB.mk [UserR.mk 7 "gil" 0 false] []) 7 + 2 :=
  concurrent_updates_no_lost_update (DB.mk [UserR.mk 7 "gil" 0 false] []) 7
    (UserR.mk 7 "gil" 0 false) 10 5 TxType.deposit TxType.deposit "a" "b"
    none none none none rfl _
    (Interleaving.consLeft _ (Interleaving.consLeft _ (Interleaving.nilLeft _)))

/-- C5: debit sufficiency.  For a registered user, a parsed positive
quantity and a known item type, whenever quantity times unit price
exceeds the stored balance, both comprar handlers of bot.js answer the
insufficient-balance rejection and leave the store untouched: no
transaction row and no balance change. -/
theorem insufficient_balance_purchase_rejected
    (db : DB) (uid : Int) (u : UserR) (tyRaw qRaw : String) (q : Int)
    (price : Rat) (label : String) (g : Bool)
    (hu : findByPk db uid = some u) (hq : parseIntJS qRaw = some q) (h0 : 0 < q) :
    (q ≤ 50 → itemInfo1 (toLowerStr tyRaw) = some (price, label) →
        u.balance < (q : Rat) * price →
        comprarHandler1 db uid tyRaw qRaw g = (db, PurchaseOutcome.insufficientBalance)) ∧
    (itemInfo2 (toLowerStr tyRaw) = some (price, label) →
        u.balance < (q : Rat) * price →
        comprarHandler2 db uid tyRaw qRaw g = (db, PurchaseOutcome.insufficientBalance)) := by
  have hq0 : ¬ q ≤ 0 := by omega
  constructor
  · intro h50 hinfo hlt
    have h50x : ¬ 50 < q := by omega
    have hlt2 : u.balance < qMul (q : Rat) price := by rw [qMul_eq]; exact hlt
    simp [comprarHandler1, hq, hq0, h50x, hu, hinfo, hlt2]
  · intro hinfo hlt
    have hlt2 : u.balance < qMul (q : Rat) price := by rw [qMul_eq]; exact hlt
    simp [comprarHandler2, hq, hq0, hu, hinfo, hlt2]

theorem insufficient_balance_purchase_rejected_witness :
    comprarHandler1 (DB.mk [UserR.mk 11 "frank" 3 false] []) 11 "gg" "1" true
      = (DB.mk [UserR.mk 11 "frank" 3 false] [], PurchaseOutcome.insufficientBalance) ∧
    comprarHandler2 (DB.mk [UserR.mk 11 "frank" 3 false] []) 11 "gg" "1" true
      = (DB.mk [UserR.mk 11 "frank" 3 false] [], PurchaseOutcome.insufficientBalance) := by
  have h := insufficient_balance_purchase_rejected (DB.mk [UserR.mk 11 "frank" 3 false] [])
    11 (UserR.mk 11 "frank" 3 false) "gg" "1" 1 10 "GG" true rfl (by decide) (by decide)
  exact ⟨h.1 (by decide) (by decide) (by norm_num), h.2 (by decide) (by norm_num)⟩

/-- C6 amended: in the first comprar handler of bot.js a generation
failure after the debit is compensated.  The catch branch appends a
refund row of exactly the debited amount as a second, distinct row
(purchase and refund are both kept in the log) and the final stored
balance equals the pre-purchase balance. -/
theorem first_handler_generation_failure_compensated
    (db : DB) (uid : Int) (u : UserR) (tyRaw qRaw : String) (q : Int)
    (price : Rat) (label : String)
    (hu : findByPk db uid = some u) (hq : parseIntJS qRaw = some q)
    (h0 : 0 < q) (h50 : q ≤ 50)
    (hinfo : itemInfo1 (toLowerStr tyRaw) = some (price, label))
    (hsuf : ¬ u.balance < (q : Rat) * price) :
    (comprarHandler1 db uid tyRaw qRaw false).2 = PurchaseOutcome.purchaseRefunded ∧
    (findByPk (comprarHandler1 db uid tyRaw qRaw false).1 uid).map UserR.balance
      = some u.balance ∧
    (comprarHandler1 db uid tyRaw qRaw false).1.txns = db.txns ++
      [{ userId := uid, txType := TxType.purchase, amount := -((q : Rat) * price),
         description := "Compra de " ++ toString q ++ " " ++ label ++ "(s)",
         paymentId := none, paymentMethod := some "purchase" },
       { userId := uid, txType := TxType.refund, amount := (q : Rat) * price,
         description := "Reembolso - Erro na compra de " ++ toString q ++ " " ++ label ++ "(s)",
         paymentId := none, paymentMethod := some "refund" }] := by
  have hq0 : ¬ q ≤ 0 := by omega
  have h50x : ¬ 50 < q := by omega
  have hsuf2 : ¬ u.balance < qMul (q : Rat) price := by rw [qMul_eq]; exact hsuf
  have hfind1 : findByPk (createTxn (incrementBalance db uid (-qMul (q : Rat) price))
      { userId := uid, txType := TxType.purchase, amount := -qMul (q : Rat) price,
        description := "Compra de " ++ toString q ++ " " ++ label ++ "(s)",
        paymentId := none, paymentMethod := some "purchase" }) uid
      = some { u with balance := u.balance + -qMul (q : Rat) price } := by
    rw [findByPk_createTxn, findByPk_inc_same, hu]
    rfl
  have hred : comprarHandler1 db uid tyRaw qRaw false
      = ((updateUserBalance
            (updateUserBalance db uid (-qMul (q : Rat) price) TxType.purchase
              ("Compra de " ++ toString q ++ " " ++ label ++ "(s)") none (some "purchase")).1
            uid (qMul (q : Rat) price) TxType.refund
            ("Reembolso - Erro na compra de " ++ toString q ++ " " ++ label ++ "(s)")
            none (some "refund")).1,
         PurchaseOutcome.purchaseRefunded) := by
    simp only [comprarHandler1, hq, hq0, h50x, hu, hinfo, hsuf2]
    simp
  rw [hred]
  rw [updateUserBalance_found db uid _ _ _ _ _ u hu]
  rw [updateUserBalance_found _ uid _ _ _ _ _ _ hfind1]
  refine ⟨rfl, ?_, ?_⟩
  · rw [findByPk_createTxn, findByPk_inc_same, hfind1]
    simp only [Option.map_some']
    congr 1
    rw [qMul_eq]
    ring
  · simp only [createTxn, incrementBalance]
    rw [qMul_eq]
    simp [List.append_assoc]

theorem first_handler_generation_failure_compensated_witness :
    (comprarHandler1 (DB.mk [UserR.mk 9 "dave" 100 false] []) 9 "gg" "1" false).2
      = PurchaseOutcome.purchaseRefunded ∧
    (findByPk (comprarHandler1 (DB.mk [UserR.mk 9 "dave" 100 false] []) 9 "gg" "1" false).1 9).map
        UserR.balance = some (UserR.mk 9 "dave" 100 false).balance ∧
    (comprarHandler1 (DB.mk [UserR.mk 9 "dave" 100 false] []) 9 "gg" "1" false).1.txns
      = (DB.mk [UserR.mk 9 "dave" 100 false] []).txns ++
      [{ userId := 9, txType := TxType.purchase, amount := -(((1 : Int) : Rat) * 10),
         description := "Compra de " ++ toString (1 : Int) ++ " " ++ "GG" ++ "(s)",
         paymentId := none, paymentMethod := some "purchase" },
       { userId := 9, txType := TxType.refund, amount := ((1 : Int) : Rat) * 10,
         description := "Reembolso - Erro na compra de " ++ toString (1 : Int) ++ " " ++ "GG" ++ "(s)",
         paymentId := none, paymentMethod := some "refund" }] :=
  first_handler_generation_failure_compensated (DB.mk [UserR.mk 9 "dave" 100 false] [])
    9 (UserR.mk 9 "dave" 100 false) "gg" "1" 1 10 "GG" rfl (by decide) (by decide) (by decide)
    (by decide) (by norm_num)

/-- C7 amended: quantity validation.  Both comprar handlers of bot.js
reject a quantity that does not parse to a number or parses to a
non-positive number, before any debit and with no mutation; only the
first handler additionally rejects quantities above the maximum of
fifty, again before any debit. -/
theorem quantity_validation_amended (db : DB) (uid : Int) (tyRaw : String) :
    (∀ (qRaw : String) (g : Bool), parseIntJS qRaw = none →
        comprarHandler1 db uid tyRaw qRaw g = (db, PurchaseOutcome.invalidQuantity) ∧
        comprarHandler2 db uid tyRaw qRaw g = (db, PurchaseOutcome.invalidQuantity)) ∧
    (∀ (qRaw : String) (q : Int) (g : Bool), parseIntJS qRaw = some q → q ≤ 0 →
        comprarHandler1 db uid tyRaw qRaw g = (db, PurchaseOutcome.invalidQuantity) ∧
        comprarHandler2 db uid tyRaw qRaw g = (db, PurchaseOutcome.invalidQuantity)) ∧
    (∀ (qRaw : String) (q : Int) (g : Bool), parseIntJS qRaw = some q → 50 < q →
        comprarHandler1 db uid tyRaw qRaw g = (db, PurchaseOutcome.quantityOverMax)) := by
  refine ⟨?_, ?_, ?_⟩
  · intro qRaw g hq
    exact ⟨by simp [comprarHandler1, hq], by simp [comprarHandler2, hq]⟩
  · intro qRaw q g hq hle
    exact ⟨by simp [comprarHandler1, hq, hle], by simp [comprarHandler2, hq, hle]⟩
  · intro qRaw q g hq hgt
    have hq0 : ¬ q ≤ 0 := by omega
    simp [comprarHandler1, hq, hq0, hgt]

theorem quantity_validation_amended_witness :
    (comprarHandler1 (DB.mk [UserR.mk 5 "erin" 1000 false] []) 5 "gg" "abc" true
        = (DB.mk [UserR.mk 5 "erin" 1000 false] [], PurchaseOutcome.invalidQuantity) ∧
     comprarHandler2 (DB.mk [UserR.mk 5 "erin" 1000 false] []) 5 "gg" "abc" true
        = (DB.mk [UserR.mk 5 "erin" 1000 false] [], PurchaseOutcome.invalidQuantity)) ∧
    (comprarHandler1 (DB.mk [UserR.mk 5 "erin" 1000 false] []) 5 "gg" "0" true
        = (DB.mk [UserR.mk 5 "erin" 1000 false] [], PurchaseOutcome.invalidQuantity) ∧
     comprarHandler2 (DB.mk [UserR.mk 5 "erin" 1000 false] []) 5 "gg" "0" true
        = (DB.mk [UserR.mk 5 "erin" 1000 false] [], PurchaseOutcome.invalidQuantity)) ∧
    comprarHandler1 (DB.mk [UserR.mk 5 "erin" 1000 false] []) 5 "gg" "51" true
        = (DB.mk [UserR.mk 5 "erin" 1000 false] [], PurchaseOutcome.quantityOverMax) :=
  ⟨(quantity_validation_amended (DB.mk [UserR.mk 5 "erin" 1000 false] []) 5 "gg").1
      "abc" true (by decide),
   (quantity_validation_amended (DB.mk [UserR.mk 5 "erin" 1000 false] []) 5 "gg").2.1
      "0" 0 true (by decide) (by decide),
   (quantity_validation_amended (DB.mk [UserR.mk 5 "erin" 1000 false] []) 5 "gg").2.2
      "51" 51 true (by decide) (by decide)⟩

/-- C8: admin gate on the balance-adjustment command.  When the acting
account is unregistered or lacks the admin flag, setsaldo answers the
denial and performs no mutation: no balance changes and no transaction
row is created.  When an admin-flagged account targets an existing user
with parsable arguments, the signed delta is applied through
updateUserBalance with kind admin_adjustment: the target balance grows by
the delta and exactly one admin_adjustment row is appended. -/
theorem setsaldo_admin_gate (db : DB) (adminId : Int) (tRaw aRaw : String) :
    (isAdminAcct db adminId = false →
        setsaldoHandler db adminId tRaw aRaw = (db, AdminOutcome.accessDenied)) ∧
    (∀ (tid : Int) (δ : Rat) (t : UserR), isAdminAcct db adminId = true →
        parseIntJS tRaw = some tid → parseFloatJS aRaw = some δ →
        findByPk db tid = some t →
        setsaldoHandler db adminId tRaw aRaw =
          ((updateUserBalance db tid δ TxType.adminAdjustment
              ("Ajuste de saldo por admin " ++ toString adminId) none none).1,
            AdminOutcome.adjusted) ∧
        (findByPk (setsaldoHandler db adminId tRaw aRaw).1 tid).map UserR.balance
          = some (t.balance + δ) ∧
        (setsaldoHandler db adminId tRaw aRaw).1.txns = db.txns ++
          [{ userId := tid, txType := TxType.adminAdjustment, amount := δ,
             description := "Ajuste de saldo por admin " ++ toString adminId,
             paymentId := none, paymentMethod := none }]) := by
  constructor
  · intro hna
    cases hA : findByPk db adminId with
    | none => simp [setsaldoHandler, hA]
    | some a =>
        have ha : a.isAdmin = false := by
          simpa [isAdminAcct, hA] using hna
        simp [setsaldoHandler, hA, ha]
  · intro tid δ t hadm htid hδ ht
    cases hA : findByPk db adminId with
    | none => simp [isAdminAcct, hA] at hadm
    | some a =>
        have ha : a.isAdmin = true := by
          simpa [isAdminAcct, hA] using hadm
        have hred : setsaldoHandler db adminId tRaw aRaw =
            ((updateUserBalance db tid δ TxType.adminAdjustment
              ("Ajuste de saldo por admin " ++ toString adminId) none none).1,
              AdminOutcome.adjusted) := by
          simp [setsaldoHandler, hA, ha, htid, hδ, ht]
        refine ⟨hred, ?_, ?_⟩
        · rw [hred]
          rw [updateUserBalance_found db tid _ _ _ _ _ t ht]
          rw [findByPk_createTxn, findByPk_inc_same, ht]
          simp only [Option.map_some']
        · rw [hred]
          rw [updateUserBalance_found db tid _ _ _ _ _ t ht]
          simp [createTxn, incrementBalance]

theorem setsaldo_admin_gate_witness :
    setsaldoHandler (DB.mk [UserR.mk 3 "joe" 0 false] []) 3 "2" "100"
      = (DB.mk [UserR.mk 3 "joe" 0 false] [], AdminOutcome.accessDenied) ∧
    ((setsaldoHandler (DB.mk [UserR.mk 1 "adm" 0 true, UserR.mk 2 "tgt" 5 false] []) 1 "2" "100").1.txns
      = (DB.mk [UserR.mk 1 "adm" 0 true, UserR.mk 2 "tgt" 5 false] []).txns ++
        [{ userId := 2, txType := TxType.adminAdjustment, amount := 100,
           description := "Ajuste de saldo por admin " ++ toString (1 : Int),
           paymentId := none, paymentMethod := none }] ∧
     (findByPk (setsaldoHandler
          (DB.mk [UserR.mk 1 "adm" 0 true, UserR.mk 2 "tgt" 5 false] []) 1 "2" "100").1 2).map
        UserR.balance = some ((UserR.mk 2 "tgt" 5 false).balance + 100)) := by
  have h1 := (setsaldo_admin_gate (DB.mk [UserR.mk 3 "joe" 0 false] []) 3 "2" "100").1 (by decide)
  have h2 := (setsaldo_admin_gate
      (DB.mk [UserR.mk 1 "adm" 0 true, UserR.mk 2 "tgt" 5 false] []) 1 "2" "100").2
      2 100 (UserR.mk 2 "tgt" 5 false) (by decide) (by decide) (by decide) (by decide)
  exact ⟨h1, h2.2.2, h2.2.1⟩

end TelegramPix
